import Mathlib

/-!
Verification of the godxmap broadcast hub (src/godxmap.go) against its
natural-language specification.

The Go source is shallowly embedded: the `frame` map becomes an association
list, the hub's single coordination goroutine (`Server.run`) becomes a step
function over an explicit event list, per-connection state
(`dxmapConnection`) becomes a structure whose channels are explicit flags
and lists, and the external websocket transport becomes an oracle giving
each write attempt a duration and an outcome.  Go panics (send on a closed
channel, nil-pointer dereference) are modelled as explicit `GoPanic`
values returned next to the post-state.
-/

namespace Godxmap

/-- Field values of a wtSock frame (`map[string]any` in the source holds
strings, `int64` timestamps and `float64` frequencies; the float payload is
kept as an uninterpreted bit pattern since the code never computes with it). -/
inductive Value where
  | str (s : String)
  | int (n : Int)
  | f64 (bits : Nat)
deriving DecidableEq, Repr

/-- Embedding of `type frame map[string]any`: an association list from field
name to value (keys unique by construction). -/
abbrev frame := List (String × Value)

/-- Go map assignment `m[k] = v`: replace the value when the key is present,
append the binding otherwise. -/
def frame.set (m : frame) (k : String) (v : Value) : frame :=
  if m.any (fun p => p.1 == k) then
    m.map (fun p => if p.1 == k then (k, v) else p)
  else
    m ++ [(k, v)]

/-- Go map lookup `m[k]`. -/
def frame.get? (m : frame) (k : String) : Option Value :=
  (m.find? (fun p => p.1 == k)).map Prod.snd

/-- Key set of a frame, in construction order. -/
def frame.keys (m : frame) : List String := m.map Prod.fst

/-- `writeTimeout = 100 * time.Millisecond` from the source's const block,
in milliseconds. -/
def writeTimeout : Nat := 100

/-- Embedding of `Server.newFrame`: the common fields of every frame.
`addr` is the server's configured listen address (`s.addr`) and `nowMs`
the value of `time.Now().UnixMilli()` at the moment of construction. -/
def newFrame (addr : String) (nowMs : Int) (frameType : String) : frame :=
  [("Frame", .str frameType), ("DateTime", .int nowMs), ("SourceAddr", .str addr)]

/-- Embedding of `Server.loggedCallFrame`. -/
def loggedCallFrame (addr : String) (nowMs : Int) (call : String)
    (frequencyKHz : Nat) : frame :=
  ((newFrame addr nowMs "LoggedCall").set "Call" (.str call)).set
    "Frequency" (.f64 frequencyKHz)

/-- Embedding of `Server.partialCallFrame`. -/
def partialCallFrame (addr : String) (nowMs : Int) (call : String) : frame :=
  (newFrame addr nowMs "PartialCall").set "Call" (.str call)

/-- Embedding of `Server.dxSpotFrame`. -/
def dxSpotFrame (addr : String) (nowMs : Int) (spot : String) (spotter : String)
    (frequencyKHz : Nat) (comments : String) : frame :=
  ((((newFrame addr nowMs "DXSpot").set "Spot" (.str spot)).set
    "Spotter" (.str spotter)).set "Frequency" (.f64 frequencyKHz)).set
    "Comments" (.str comments)

/-- Embedding of `Server.gabFrame`. -/
def gabFrame (addr : String) (nowMs : Int) (from_ : String) (to_ : String)
    (message : String) : frame :=
  (((newFrame addr nowMs "Gab").set "From" (.str from_)).set
    "To" (.str to_)).set "Message" (.str message)

/-- Behaviour of one write attempt on the external websocket transport:
whether `SetWriteDeadline` succeeds, how long the underlying write would
take (in milliseconds) and whether it would succeed.  A write that would
take at least `writeTimeout` is cut off by the deadline and errors. -/
structure TxBehavior where
  deadlineSettable : Bool
  delayMs : Nat
  writeOk : Bool
deriving DecidableEq, Repr

/-- Embedding of `dxmapConnection`.  The `closed` channel becomes the flag
`closedFlag` (true once `close(c.closed)` ran); the buffered `frames`
channel (capacity 1) becomes the list `framesQueue` plus the flag
`framesClosed` (true if `close(c.frames)` ever ran); `connClosed` records
`c.conn.Close()`.  `transport` gives the behaviour of each successive write
attempt, counted by `attempts`; `sent` is the ghost list of frames
successfully transmitted to this client. -/
structure Conn where
  id : Nat
  closedFlag : Bool
  connClosed : Bool
  framesQueue : List frame
  framesClosed : Bool
  transport : Nat → TxBehavior
  attempts : Nat
  sent : List frame

/-- Embedding of `newDXMapConnection`: a fresh connection with open channels
and an empty frames queue. -/
def newConn (cid : Nat) (tr : Nat → TxBehavior) : Conn :=
  { id := cid, closedFlag := false, connClosed := false, framesQueue := [],
    framesClosed := false, transport := tr, attempts := 0, sent := [] }

/-- Embedding of `dxmapConnection.Close`: a no-op when the `closed` channel
is already closed, otherwise close the websocket connection and then the
`closed` channel (the returned error is discarded by the hub loop). -/
def Conn.close (c : Conn) : Conn :=
  if c.closedFlag then c
  else { c with connClosed := true, closedFlag := true }

/-- Result of `dxmapConnection.Send`: the updated connection, whether an
error was returned, and how long the call blocked its caller. -/
structure SendResult where
  conn : Conn
  errored : Bool
  elapsedMs : Nat

/-- Embedding of `dxmapConnection.Send`: return nil immediately when the
connection is already marked closed; otherwise set a write deadline of
`writeTimeout` (which may itself fail) and transmit the frame, erroring
after `writeTimeout` when the transport is slower than the deadline. -/
def Conn.send (c : Conn) (f : frame) : SendResult :=
  if c.closedFlag then ⟨c, false, 0⟩
  else
    let b := c.transport c.attempts
    let c' : Conn := { c with attempts := c.attempts + 1 }
    if !b.deadlineSettable then ⟨c', true, 0⟩
    else if writeTimeout ≤ b.delayMs then ⟨c', true, writeTimeout⟩
    else if b.writeOk then ⟨{ c' with sent := c'.sent ++ [f] }, false, b.delayMs⟩
    else ⟨c', true, b.delayMs⟩

/-- One iteration of the fan-out loop in `Server.run` (frame event, channel
still active): `err := c.Send(frame); if err != nil { c.Close() }`. -/
def fanoutOne (f : frame) (c : Conn) : Conn :=
  let r := Conn.send c f
  if r.errored then Conn.close r.conn else r.conn

/-- Time the hub loop spends inside `c.Send(frame)` for one connection. -/
def fanoutElapsed (f : frame) (c : Conn) : Nat := (Conn.send c f).elapsedMs

/-- Result of processing one frame event in the hub loop. -/
structure FanoutResult where
  conns : List Conn
  elapsedMs : Nat

/-- Embedding of the frame-event arm of `Server.run`: iterate the registry
in order, sending to each connection and closing it on error; the hub loop
itself blocks for the sum of the individual send times. -/
def fanoutFrame (conns : List Conn) (f : frame) : FanoutResult :=
  ⟨conns.map (fanoutOne f), (conns.map (fanoutElapsed f)).sum⟩

/-- Events the hub loop `Server.run` can receive at its single wait point:
a frame from the inbound channel (`active = true`), a registration, or the
inbound channel closing (`active = false`, the shutdown signal). -/
inductive Event where
  | submit (f : frame)
  | register (cid : Nat) (tr : Nat → TxBehavior)
  | shutdown

/-- State of the hub loop: the `outbound` registry (connections are never
removed from it, matching the source) and whether the loop has returned
(upon which `close(s.closed)` runs via the deferred call). -/
structure HubState where
  outbound : List Conn
  terminated : Bool

/-- Embedding of one iteration of `Server.run`'s select loop.  After the
loop has returned no further event is processed. -/
def step (st : HubState) (e : Event) : HubState :=
  if st.terminated then st
  else
    match e with
    | .submit f => { st with outbound := (fanoutFrame st.outbound f).conns }
    | .register cid tr => { st with outbound := st.outbound ++ [newConn cid tr] }
    | .shutdown =>
        { outbound := st.outbound.map Conn.close, terminated := true }

/-- The hub loop run over a whole (serialised) event sequence, from the
initial state `outbound := make([]dxmapConnection, 0)`. -/
def runEvents (es : List Event) : HubState :=
  List.foldl step { outbound := [], terminated := false } es

/-- Frames transmitted to the connections with identity `cid` among `l`. -/
def receivedByList (cid : Nat) (l : List Conn) : List frame :=
  ((l.filter (fun c => c.id == cid)).map Conn.sent).flatten

/-- Frames transmitted to the connection(s) with identity `cid`. -/
def receivedBy (cid : Nat) (st : HubState) : List frame :=
  receivedByList cid st.outbound

/-- Identities of the connections registered by an event sequence. -/
def registerIds (es : List Event) : List Nat :=
  es.filterMap (fun e =>
    match e with
    | .register cid _ => some cid
    | _ => none)

/-- Go panics the embedded code can raise. -/
inductive GoPanic where
  | sendOnClosedChannel
  | closeOfClosedChannel
  | nilPointerDereference
deriving DecidableEq, Repr

/-- State of a `Server` value: its configured address, whether `s.server`
has been assigned (it is set only inside `Serve`, after `net.Listen`
succeeds), whether `close(s.inbound)` has run, and the hub-loop state. -/
structure ServerState where
  addr : String
  serverSet : Bool
  inboundClosed : Bool
  hub : HubState

/-- Embedding of `Server.send` (plus the hub's processing of the handed-off
frame): `s.inbound <- f` panics when the inbound channel is closed,
otherwise the hub loop receives the frame and fans it out. -/
def serverSend (s : ServerState) (f : frame) : ServerState × Option GoPanic :=
  if s.inboundClosed then (s, some .sendOnClosedChannel)
  else ({ s with hub := step s.hub (.submit f) }, none)

/-- Embedding of `Server.Close`: `close(s.inbound)` (a panic when already
closed), then wait on `s.closed` for the hub loop to terminate (it closes
every registered connection on the way out), then `s.server.Close()` —
a nil-pointer dereference when `s.server` was never assigned. -/
def serverClose (s : ServerState) : ServerState × Option GoPanic :=
  if s.inboundClosed then (s, some .closeOfClosedChannel)
  else
    let s' : ServerState :=
      { s with inboundClosed := true, hub := step s.hub .shutdown }
    if s'.serverSet then (s', none)
    else (s', some .nilPointerDereference)

/-- Embedding of `Server.ShowLoggedCall`: build the frame (stamping the
submission-time clock and the server's address) and submit it. -/
def showLoggedCall (s : ServerState) (nowMs : Int) (call : String)
    (frequencyKHz : Nat) : ServerState × Option GoPanic :=
  serverSend s (loggedCallFrame s.addr nowMs call frequencyKHz)

/-- Embedding of `Server.ShowPartialCall`. -/
def showPartialCall (s : ServerState) (nowMs : Int) (call : String) :
    ServerState × Option GoPanic :=
  serverSend s (partialCallFrame s.addr nowMs call)

/-- Embedding of `Server.ShowDXSpot`. -/
def showDXSpot (s : ServerState) (nowMs : Int) (spot : String) (spotter : String)
    (frequencyKHz : Nat) (comments : String) : ServerState × Option GoPanic :=
  serverSend s (dxSpotFrame s.addr nowMs spot spotter frequencyKHz comments)

/-- Embedding of `Server.ShowGab`. -/
def showGab (s : ServerState) (nowMs : Int) (from_ : String) (to_ : String)
    (message : String) : ServerState × Option GoPanic :=
  serverSend s (gabFrame s.addr nowMs from_ to_ message)

/-- Transcription of the methods the package exports on `Server` in
src/godxmap.go. -/
def serverExportedMethods : List String :=
  ["Close", "Serve", "ShowLoggedCall", "ShowPartialCall", "ShowDXSpot", "ShowGab"]

/-! ## Basic facts about the embedded connection operations -/

/-- Lemma: `Send` blocks its caller for at most the write deadline. -/
lemma send_elapsed_le_writeTimeout (c : Conn) (f : frame) :
    (Conn.send c f).elapsedMs ≤ writeTimeout := by
  unfold Conn.send
  dsimp only
  split
  · exact Nat.zero_le _
  · split
    · exact Nat.zero_le _
    · split
      · exact Nat.le_refl _
      · split
        · next h _ => exact Nat.le_of_lt (Nat.lt_of_not_le h)
        · next h _ => exact Nat.le_of_lt (Nat.lt_of_not_le h)

/-- Lemma: `Send` leaves identity, the closed flag and the (unused) frames
queue alone, and appends at most the sent frame to the transmitted list. -/
lemma send_conn_fields (c : Conn) (f : frame) :
    (Conn.send c f).conn.id = c.id ∧
    (Conn.send c f).conn.closedFlag = c.closedFlag ∧
    (Conn.send c f).conn.framesQueue = c.framesQueue ∧
    (Conn.send c f).conn.framesClosed = c.framesClosed ∧
    ((Conn.send c f).conn.sent = c.sent ∨
      (Conn.send c f).conn.sent = c.sent ++ [f]) := by
  unfold Conn.send
  dsimp only
  split
  · exact ⟨rfl, rfl, rfl, rfl, Or.inl rfl⟩
  · split
    · exact ⟨rfl, rfl, rfl, rfl, Or.inl rfl⟩
    · split
      · exact ⟨rfl, rfl, rfl, rfl, Or.inl rfl⟩
      · split
        · exact ⟨rfl, rfl, rfl, rfl, Or.inr rfl⟩
        · exact ⟨rfl, rfl, rfl, rfl, Or.inl rfl⟩

/-- Lemma: `Close` marks the connection closed and touches nothing else;
in particular it never closes the frames queue. -/
lemma close_fields (c : Conn) :
    (Conn.close c).id = c.id ∧ (Conn.close c).closedFlag = true ∧
    (Conn.close c).framesQueue = c.framesQueue ∧
    (Conn.close c).framesClosed = c.framesClosed ∧
    (Conn.close c).sent = c.sent := by
  unfold Conn.close
  split
  · next h => exact ⟨rfl, h, rfl, rfl, rfl⟩
  · exact ⟨rfl, rfl, rfl, rfl, rfl⟩

/-- Lemma: one fan-out iteration preserves identity and the frames queue and
appends at most the broadcast frame to the transmitted list. -/
lemma fanoutOne_fields (f : frame) (c : Conn) :
    (fanoutOne f c).id = c.id ∧
    (fanoutOne f c).framesQueue = c.framesQueue ∧
    (fanoutOne f c).framesClosed = c.framesClosed ∧
    ((fanoutOne f c).sent = c.sent ∨ (fanoutOne f c).sent = c.sent ++ [f]) := by
  have hs := send_conn_fields c f
  unfold fanoutOne
  dsimp only
  split
  · have hc := close_fields (Conn.send c f).conn
    exact ⟨hc.1.trans hs.1, hc.2.2.1.trans hs.2.2.1,
      hc.2.2.2.1.trans hs.2.2.2.1, by rw [hc.2.2.2.2]; exact hs.2.2.2.2⟩
  · exact ⟨hs.1, hs.2.2.1, hs.2.2.2.1, hs.2.2.2.2⟩

end Godxmap

namespace Godxmap

/-- Concrete connection for the C5 witness: a connection already marked
closed. -/
def closedConnEx : Conn :=
  { newConn 9 (fun _ => ⟨true, 0, true⟩) with closedFlag := true }

/-- Concrete frame for the C5 witness. -/
def probeFrame5 : frame := [("Frame", .str "LoggedCall")]

/-- Claim C5: a delivery attempt to a subscriber already marked terminated
transmits nothing — `Send` returns immediately (nil error, no elapsed time,
connection state untouched, nothing appended to its transmitted stream),
and the fan-out iteration leaves the connection exactly as it was. -/
theorem closed_conn_receives_nothing (c : Conn) (f : frame)
    (h : c.closedFlag = true) :
    Conn.send c f = ⟨c, false, 0⟩ ∧ fanoutOne f c = c := by
  have h1 : Conn.send c f = ⟨c, false, 0⟩ := by unfold Conn.send; rw [if_pos h]
  exact ⟨h1, by unfold fanoutOne; rw [h1]; rfl⟩


/-- Claim C5 witness: the theorem applied to a concrete closed connection
and frame. -/
theorem closed_conn_receives_nothing_witness :
    Conn.send closedConnEx probeFrame5 = ⟨closedConnEx, false, 0⟩ ∧
    fanoutOne probeFrame5 closedConnEx = closedConnEx :=
  closed_conn_receives_nothing closedConnEx probeFrame5 rfl

/-- Claim C7: the exported API offers `Close` (abrupt shutdown) but no
`Shutdown` method — no graceful, bounded-drain shutdown mode accepting a
cancellation signal or deadline exists, although `Serve`'s doc comment
references one. -/
theorem no_graceful_shutdown_method :
    "Close" ∈ serverExportedMethods ∧ "Shutdown" ∉ serverExportedMethods := by
  decide

/-- Claim C8: the frame built by `ShowGab`/`gabFrame` carries the kind
discriminator `Frame = "Gab"` (not `"PartialCall"`) together with the
`From`, `To` and `Message` fields equal to the given arguments. -/
theorem gab_frame_kind_is_gab (addr : String) (nowMs : Int)
    (from_ to_ message : String) :
    (gabFrame addr nowMs from_ to_ message).get? "Frame" = some (.str "Gab") ∧
    (gabFrame addr nowMs from_ to_ message).get? "From" = some (.str from_) ∧
    (gabFrame addr nowMs from_ to_ message).get? "To" = some (.str to_) ∧
    (gabFrame addr nowMs from_ to_ message).get? "Message" =
      some (.str message) :=
  ⟨rfl, rfl, rfl, rfl⟩

/-- Claim C9: every frame built by the four producer operations carries
exactly the canonical fields of its kind plus the common `Frame`,
`DateTime` (the clock value at submission) and `SourceAddr` (the server's
configured listen address), and each `Show*` operation submits exactly the
frame stamped with its server's address and the submission-time clock. -/
theorem frames_carry_canonical_fields (s : ServerState) (nowMs : Int)
    (call spot spotter comments from_ to_ message : String) (freq : Nat) :
    (loggedCallFrame s.addr nowMs call freq).keys =
      ["Frame", "DateTime", "SourceAddr", "Call", "Frequency"] ∧
    (loggedCallFrame s.addr nowMs call freq).get? "Frame" =
      some (.str "LoggedCall") ∧
    (loggedCallFrame s.addr nowMs call freq).get? "DateTime" =
      some (.int nowMs) ∧
    (loggedCallFrame s.addr nowMs call freq).get? "SourceAddr" =
      some (.str s.addr) ∧
    (loggedCallFrame s.addr nowMs call freq).get? "Call" = some (.str call) ∧
    (loggedCallFrame s.addr nowMs call freq).get? "Frequency" =
      some (.f64 freq) ∧
    (partialCallFrame s.addr nowMs call).keys =
      ["Frame", "DateTime", "SourceAddr", "Call"] ∧
    (partialCallFrame s.addr nowMs call).get? "Frame" =
      some (.str "PartialCall") ∧
    (partialCallFrame s.addr nowMs call).get? "DateTime" =
      some (.int nowMs) ∧
    (partialCallFrame s.addr nowMs call).get? "SourceAddr" =
      some (.str s.addr) ∧
    (partialCallFrame s.addr nowMs call).get? "Call" = some (.str call) ∧
    (dxSpotFrame s.addr nowMs spot spotter freq comments).keys =
      ["Frame", "DateTime", "SourceAddr", "Spot", "Spotter", "Frequency",
        "Comments"] ∧
    (dxSpotFrame s.addr nowMs spot spotter freq comments).get? "Frame" =
      some (.str "DXSpot") ∧
    (dxSpotFrame s.addr nowMs spot spotter freq comments).get? "DateTime" =
      some (.int nowMs) ∧
    (dxSpotFrame s.addr nowMs spot spotter freq comments).get? "SourceAddr" =
      some (.str s.addr) ∧
    (dxSpotFrame s.addr nowMs spot spotter freq comments).get? "Spot" =
      some (.str spot) ∧
    (dxSpotFrame s.addr nowMs spot spotter freq comments).get? "Spotter" =
      some (.str spotter) ∧
    (dxSpotFrame s.addr nowMs spot spotter freq comments).get? "Frequency" =
      some (.f64 freq) ∧
    (dxSpotFrame s.addr nowMs spot spotter freq comments).get? "Comments" =
      some (.str comments) ∧
    (gabFrame s.addr nowMs from_ to_ message).keys =
      ["Frame", "DateTime", "SourceAddr", "From", "To", "Message"] ∧
    (gabFrame s.addr nowMs from_ to_ message).get? "DateTime" =
      some (.int nowMs) ∧
    (gabFrame s.addr nowMs from_ to_ message).get? "SourceAddr" =
      some (.str s.addr) ∧
    showLoggedCall s nowMs call freq =
      serverSend s (loggedCallFrame s.addr nowMs call freq) ∧
    showPartialCall s nowMs call =
      serverSend s (partialCallFrame s.addr nowMs call) ∧
    showDXSpot s nowMs spot spotter freq comments =
      serverSend s (dxSpotFrame s.addr nowMs spot spotter freq comments) ∧
    showGab s nowMs from_ to_ message =
      serverSend s (gabFrame s.addr nowMs from_ to_ message) := by
  refine ⟨rfl, rfl, rfl, rfl, rfl, rfl, rfl, rfl, rfl, rfl, rfl, rfl, rfl,
    rfl, rfl, rfl, rfl, rfl, rfl, rfl, rfl, rfl, rfl, rfl, rfl, rfl⟩

/-- Concrete server for the C10 witness: fresh from `NewServer`, its
`Serve` method never run, so `s.server` is still nil. -/
def unstartedServerEx : ServerState :=
  { addr := "localhost:0", serverSet := false, inboundClosed := false,
    hub := { outbound := [], terminated := false } }

/-- Claim C10: calling `Close` on a server whose `Serve` never assigned
`s.server` does not return an error: after closing the inbound channel and
waiting for the hub loop to terminate, `s.server.Close()` dereferences a
nil pointer and panics. -/
theorem close_unstarted_server_panics (s : ServerState)
    (h1 : s.serverSet = false) (h2 : s.inboundClosed = false) :
    (serverClose s).2 = some GoPanic.nilPointerDereference ∧
    (serverClose s).1.inboundClosed = true ∧
    (serverClose s).1.hub.terminated = true := by
  by_cases hT : s.hub.terminated = true
  · simp [serverClose, h1, h2, step, hT]
  · simp only [Bool.not_eq_true] at hT
    simp [serverClose, h1, h2, step, hT]

/-- Claim C10 witness: the theorem applied to the concrete unstarted
server. -/
theorem close_unstarted_server_panics_witness :
    (serverClose unstartedServerEx).2 = some GoPanic.nilPointerDereference ∧
    (serverClose unstartedServerEx).1.inboundClosed = true ∧
    (serverClose unstartedServerEx).1.hub.terminated = true :=
  close_unstarted_server_panics unstartedServerEx rfl rfl

/-! ## Claim C1: the fan-out mechanism -/

/-- Claim C1 as stated: on a frame event, delivery to each open subscriber
is a non-blocking enqueue onto its bounded frames queue (so an open
subscriber with a non-full queue gets the frame appended to the queue and
stays open) and the hub loop spends no waiting time at all — it never
stalls on a slow subscriber. -/
def enqueueFanoutClaim : Prop :=
  ∀ (conns : List Conn) (f : frame),
    (fanoutFrame conns f).elapsedMs = 0 ∧
    ∀ c ∈ conns, c.closedFlag = false → c.framesQueue.length < 1 →
      (fanoutOne f c).framesQueue = c.framesQueue ++ [f] ∧
      (fanoutOne f c).closedFlag = false

/-- Concrete input refuting claim C1: an open subscriber whose transport
needs 1000 ms per write, far over the 100 ms deadline. -/
def slowTransportConn : Conn := newConn 0 (fun _ => ⟨true, 1000, true⟩)

/-- Concrete frame for the C1 counterexample. -/
def probeFrame1 : frame := [("Frame", .str "PartialCall")]

/-- Claim C1 counterexample: the claim is false on the code.  With one slow
subscriber the hub loop blocks for the full 100 ms write deadline (a timed
wait, not a non-blocking enqueue), nothing is ever placed in the
subscriber's frames queue, and instead of dropping the frame and keeping the
subscriber, the hub closes it. -/
theorem nonblocking_enqueue_claim_refuted :
    (enqueueFanoutClaim ↔ False) ∧
    (fanoutFrame [slowTransportConn] probeFrame1).elapsedMs = writeTimeout ∧
    (fanoutOne probeFrame1 slowTransportConn).framesQueue = [] ∧
    (fanoutOne probeFrame1 slowTransportConn).closedFlag = true := by
  refine ⟨⟨fun h => ?_, False.elim⟩, rfl, rfl, rfl⟩
  have h1 := (h [slowTransportConn] probeFrame1).1
  rw [show (fanoutFrame [slowTransportConn] probeFrame1).elapsedMs =
    writeTimeout from rfl] at h1
  exact absurd h1 (by decide)

/-- Claim C1 as amended: on a frame event the hub transmits directly to
each subscriber, inline, under the 100 ms write deadline — a timed wait,
not a non-blocking enqueue.  The hub loop can therefore stall up to
`writeTimeout` per registered subscriber (but no longer), and the
per-subscriber frames queue is never used: it stays exactly as it was for
every subscriber. -/
theorem fanout_is_direct_bounded_transmit (conns : List Conn) (f : frame) :
    (fanoutFrame conns f).elapsedMs ≤ conns.length * writeTimeout ∧
    (fanoutFrame conns f).conns.map Conn.framesQueue =
      conns.map Conn.framesQueue ∧
    (fanoutFrame conns f).conns.map Conn.framesClosed =
      conns.map Conn.framesClosed := by
  refine ⟨?_, ?_, ?_⟩
  · show (conns.map (fanoutElapsed f)).sum ≤ conns.length * writeTimeout
    induction conns with
    | nil => simp
    | cons c l ih =>
        simp only [List.map_cons, List.sum_cons, List.length_cons]
        calc fanoutElapsed f c + (l.map (fanoutElapsed f)).sum
            ≤ writeTimeout + l.length * writeTimeout :=
              Nat.add_le_add (send_elapsed_le_writeTimeout c f) ih
          _ = (l.length + 1) * writeTimeout := by ring
  · show (conns.map (fanoutOne f)).map Conn.framesQueue = _
    rw [List.map_map]
    exact List.map_congr_left fun c _ => (fanoutOne_fields f c).2.1
  · show (conns.map (fanoutOne f)).map Conn.framesClosed = _
    rw [List.map_map]
    exact List.map_congr_left fun c _ => (fanoutOne_fields f c).2.2.1

/-! ## Claim C2: failure handling of one subscriber -/

/-- Claim C2 as stated (the self-termination part): when a subscriber's
transmission fails, the subscriber closes its own frames queue. -/
def queueCloseClaim : Prop :=
  ∀ (f : frame) (c : Conn), (Conn.send c f).errored = true →
    (fanoutOne f c).framesClosed = true

/-- Concrete input refuting claim C2: an open subscriber whose transport
write fails immediately. -/
def failingTransportConn : Conn := newConn 1 (fun _ => ⟨true, 0, false⟩)

/-- Second concrete connection for the C2 witness: a healthy subscriber
registered next to the failing one. -/
def healthySideConn : Conn := newConn 2 (fun _ => ⟨true, 0, true⟩)

/-- Concrete frame for the C2 counterexample and witness. -/
def probeFrame2 : frame := [("Frame", .str "DXSpot")]

/-- Claim C2 counterexample: the claim is false on the code.  After a
failed transmission the subscriber's frames queue is NOT closed (no code
path ever closes it); what happens instead is that the hub closes the
websocket connection and the done channel. -/
theorem self_queue_close_claim_refuted :
    (queueCloseClaim ↔ False) ∧
    (Conn.send failingTransportConn probeFrame2).errored = true ∧
    (fanoutOne probeFrame2 failingTransportConn).framesClosed = false ∧
    (fanoutOne probeFrame2 failingTransportConn).closedFlag = true := by
  refine ⟨⟨fun h => ?_, False.elim⟩, rfl, rfl, rfl⟩
  have h1 := h probeFrame2 failingTransportConn rfl
  rw [show (fanoutOne probeFrame2 failingTransportConn).framesClosed =
    false from rfl] at h1
  exact absurd h1 (by decide)

/-- Claim C2 as amended: when a subscriber's transmission fails or exceeds
the 100 ms deadline, the hub — inside its fan-out loop — closes that
subscriber's websocket connection and its done channel, marking it dead (so
its serve loop, which waits on the done channel, exits); the subscriber's
frames queue itself is never closed.  Fan-out is elementwise, so every
other subscriber's post-state and delivery are computed from its own state
alone and are unaffected; in particular an open subscriber with a fast,
working transport still receives the frame. -/
theorem send_failure_closes_conn_isolated (xs ys : List Conn) (c : Conn)
    (f : frame) (h : (Conn.send c f).errored = true) :
    (fanoutOne f c).closedFlag = true ∧
    (fanoutOne f c).connClosed = true ∧
    (fanoutOne f c).framesClosed = c.framesClosed ∧
    (fanoutFrame (xs ++ c :: ys) f).conns =
      (fanoutFrame xs f).conns ++ fanoutOne f c :: (fanoutFrame ys f).conns ∧
    ∀ d ∈ xs ++ ys, d.closedFlag = false →
      (d.transport d.attempts).deadlineSettable = true →
      (d.transport d.attempts).delayMs < writeTimeout →
      (d.transport d.attempts).writeOk = true →
      (fanoutOne f d).sent = d.sent ++ [f] := by
  have hopen : c.closedFlag = false := by
    by_contra hcl
    rw [Bool.not_eq_false] at hcl
    have : (Conn.send c f).errored = false := by
      unfold Conn.send; rw [if_pos hcl]
    rw [this] at h; cases h
  have hflags : (Conn.send c f).conn.closedFlag = false :=
    (send_conn_fields c f).2.1.trans hopen
  have hfan : fanoutOne f c = Conn.close (Conn.send c f).conn := by
    unfold fanoutOne
    rw [if_pos h]
  refine ⟨?_, ?_, (fanoutOne_fields f c).2.2.1, ?_, ?_⟩
  · rw [hfan]
    exact (close_fields _).2.1
  · rw [hfan]
    unfold Conn.close
    rw [if_neg (by rw [hflags]; exact Bool.false_ne_true)]
  · show (xs ++ c :: ys).map (fanoutOne f) = _
    rw [List.map_append, List.map_cons]
    rfl
  · intro d _ hd1 hd2 hd3 hd4
    have hnle : ¬ writeTimeout ≤ (d.transport d.attempts).delayMs :=
      Nat.not_le_of_lt hd3
    simp [fanoutOne, Conn.send, hd1, hd2, hd4, hnle]

/-- Claim C2 witness: the amended theorem applied to the failing subscriber
registered after one healthy subscriber. -/
theorem send_failure_closes_conn_isolated_witness :
    (fanoutOne probeFrame2 failingTransportConn).closedFlag = true ∧
    (fanoutOne probeFrame2 failingTransportConn).connClosed = true ∧
    (fanoutOne probeFrame2 failingTransportConn).framesClosed =
      failingTransportConn.framesClosed ∧
    (fanoutFrame ([healthySideConn] ++ failingTransportConn :: []) probeFrame2).conns =
      (fanoutFrame [healthySideConn] probeFrame2).conns ++
        fanoutOne probeFrame2 failingTransportConn ::
          (fanoutFrame [] probeFrame2).conns ∧
    ∀ d ∈ [healthySideConn] ++ ([] : List Conn), d.closedFlag = false →
      (d.transport d.attempts).deadlineSettable = true →
      (d.transport d.attempts).delayMs < writeTimeout →
      (d.transport d.attempts).writeOk = true →
      (fanoutOne probeFrame2 d).sent = d.sent ++ [probeFrame2] :=
  send_failure_closes_conn_isolated [healthySideConn] [] failingTransportConn
    probeFrame2 rfl

/-! ## Claim C3: submission after shutdown -/

/-- Claim C3 as stated: a submit after the hub has begun shutdown is a
harmless no-op or rejection — the call returns to its caller without any
other effect (in particular, without panicking). -/
def noopSubmitClaim : Prop :=
  ∀ (s : ServerState) (f : frame), s.inboundClosed = true →
    (serverSend s f).2 = none

/-- Concrete server for the C3 counterexample: one whose `Close` already
closed the inbound channel. -/
def closedServerEx : ServerState :=
  { addr := "localhost:8080", serverSet := true, inboundClosed := true,
    hub := { outbound := [], terminated := true } }

/-- Concrete frame for the C3 counterexample and witness. -/
def probeFrame3 : frame := [("Frame", .str "Gab")]

/-- Claim C3 counterexample: the claim is false on the code.  A submit
after shutdown sends on the closed inbound channel, which panics in the
caller — not a harmless no-op or rejection. -/
theorem noop_submit_claim_refuted :
    (noopSubmitClaim ↔ False) ∧
    (serverSend closedServerEx probeFrame3).2 =
      some GoPanic.sendOnClosedChannel := by
  refine ⟨⟨fun h => ?_, False.elim⟩, rfl⟩
  have h1 := h closedServerEx probeFrame3 rfl
  rw [show (serverSend closedServerEx probeFrame3).2 =
    some GoPanic.sendOnClosedChannel from rfl] at h1
  cases h1

/-- Claim C3 as amended: a submit made after the hub has begun shutdown
never delivers the frame to any subscriber (the hub state is untouched),
but it is not a harmless no-op: the send on the closed inbound channel
panics in the caller. -/
theorem submit_after_shutdown_panics (s : ServerState) (f : frame)
    (h : s.inboundClosed = true) :
    serverSend s f = (s, some GoPanic.sendOnClosedChannel) := by
  unfold serverSend
  rw [if_pos h]

/-- Claim C3 witness: the amended theorem applied to the concrete closed
server. -/
theorem submit_after_shutdown_panics_witness :
    serverSend closedServerEx probeFrame3 =
      (closedServerEx, some GoPanic.sendOnClosedChannel) :=
  submit_after_shutdown_panics closedServerEx probeFrame3 rfl

/-! ## Claim C6: shutdown sequencing -/

/-- Claim C6 as stated (the queue-closing part): shutdown signals every
registered subscriber to terminate by closing its delivery queue. -/
def shutdownQueueCloseClaim : Prop :=
  ∀ s : ServerState, s.inboundClosed = false → s.hub.terminated = false →
    ∀ c ∈ (serverClose s).1.hub.outbound, c.framesClosed = true

/-- Concrete server for the C6 counterexample and witness: one registered
subscriber, hub still running. -/
def serverWithOneConnEx : ServerState :=
  { addr := "localhost:8080", serverSet := true, inboundClosed := false,
    hub := { outbound := [newConn 3 (fun _ => ⟨true, 0, true⟩)],
             terminated := false } }

/-- Claim C6 counterexample: the claim is false on the code.  After
shutdown the registered subscriber is terminated (its done channel and
websocket connection are closed) but its delivery queue is NOT closed: no
code path ever closes the `frames` channel. -/
theorem queue_close_shutdown_claim_refuted :
    (shutdownQueueCloseClaim ↔ False) ∧
    (serverClose serverWithOneConnEx).1.hub.outbound.map Conn.framesClosed =
      [false] ∧
    (serverClose serverWithOneConnEx).1.hub.outbound.map Conn.closedFlag =
      [true] := by
  refine ⟨⟨fun h => ?_, False.elim⟩, rfl, rfl⟩
  have h1 := h serverWithOneConnEx rfl rfl
    (Conn.close (newConn 3 (fun _ => ⟨true, 0, true⟩)))
    (List.mem_singleton_self _)
  rw [show (Conn.close (newConn 3 (fun _ => ⟨true, 0, true⟩))).framesClosed =
    false from rfl] at h1
  cases h1

/-- Claim C6 as amended: when shutdown is invoked on a running hub, the
inbound channel is closed first (so no new frame is ever accepted — a later
submit panics rather than delivers), every currently registered subscriber
is terminated by closing its websocket connection and its done channel (its
delivery queue, unused by the code, is left untouched), and the call
returns only after the hub loop has terminated. -/
theorem shutdown_closes_all_conns (s : ServerState)
    (h1 : s.inboundClosed = false) (h2 : s.hub.terminated = false) :
    (serverClose s).1.inboundClosed = true ∧
    (serverClose s).1.hub.terminated = true ∧
    (∀ c ∈ (serverClose s).1.hub.outbound, c.closedFlag = true) ∧
    (serverClose s).1.hub.outbound.map Conn.framesClosed =
      s.hub.outbound.map Conn.framesClosed ∧
    ∀ f : frame, (serverSend (serverClose s).1 f).2 =
      some GoPanic.sendOnClosedChannel := by
  have hstep : step s.hub .shutdown =
      { outbound := s.hub.outbound.map Conn.close, terminated := true } := by
    unfold step
    rw [if_neg (by rw [h2]; exact Bool.false_ne_true)]
  have hres : (serverClose s).1 =
      { s with inboundClosed := true,
               hub := { outbound := s.hub.outbound.map Conn.close,
                        terminated := true } } := by
    unfold serverClose
    rw [if_neg (by rw [h1]; exact Bool.false_ne_true)]
    dsimp only
    rw [hstep]
    split <;> rfl
  rw [hres]
  refine ⟨rfl, rfl, ?_, ?_, ?_⟩
  · intro c hc
    simp only [List.mem_map] at hc
    obtain ⟨d, _, hd⟩ := hc
    rw [← hd]
    exact (close_fields d).2.1
  · show (s.hub.outbound.map Conn.close).map Conn.framesClosed = _
    rw [List.map_map]
    exact List.map_congr_left fun c _ => (close_fields c).2.2.2.1
  · intro f
    unfold serverSend
    rw [if_pos rfl]

/-- Claim C6 witness: the amended theorem applied to the concrete server
with one registered subscriber. -/
theorem shutdown_closes_all_conns_witness :
    (serverClose serverWithOneConnEx).1.inboundClosed = true ∧
    (serverClose serverWithOneConnEx).1.hub.terminated = true ∧
    (∀ c ∈ (serverClose serverWithOneConnEx).1.hub.outbound,
      c.closedFlag = true) ∧
    (serverClose serverWithOneConnEx).1.hub.outbound.map Conn.framesClosed =
      serverWithOneConnEx.hub.outbound.map Conn.framesClosed ∧
    ∀ f : frame, (serverSend (serverClose serverWithOneConnEx).1 f).2 =
      some GoPanic.sendOnClosedChannel :=
  shutdown_closes_all_conns serverWithOneConnEx rfl rfl

/-! ## Claim C4: frames submitted before registration are never delivered -/

/-- Lemma: one fan-out iteration can only add the broadcast frame itself to
the frames received under an identity. -/
lemma mem_receivedByList_fanout (cid : Nat) (g f : frame) :
    ∀ l : List Conn, f ∈ receivedByList cid (l.map (fanoutOne g)) →
      f ∈ receivedByList cid l ∨ f = g := by
  intro l
  induction l with
  | nil => exact fun h => Or.inl h
  | cons c l ih =>
      intro h
      unfold receivedByList at h ⊢
      rw [List.map_cons, List.filter_cons] at h
      rw [List.filter_cons]
      simp only [(fanoutOne_fields g c).1] at h
      by_cases hc : (c.id == cid) = true
      · rw [if_pos hc] at h
        rw [if_pos hc]
        rw [List.map_cons, List.flatten_cons] at h
        rw [List.map_cons, List.flatten_cons]
        rcases List.mem_append.mp h with h' | h'
        · rcases (fanoutOne_fields g c).2.2.2 with hs | hs
          · rw [hs] at h'
            exact Or.inl (List.mem_append.mpr (Or.inl h'))
          · rw [hs] at h'
            rcases List.mem_append.mp h' with h'' | h''
            · exact Or.inl (List.mem_append.mpr (Or.inl h''))
            · exact Or.inr (List.mem_singleton.mp h'')
        · rcases ih h' with h'' | h''
          · exact Or.inl (List.mem_append.mpr (Or.inr h''))
          · exact Or.inr h''
      · rw [if_neg hc] at h
        rw [if_neg hc]
        exact ih h

/-- Lemma: a freshly registered connection has transmitted nothing, so
appending it changes no identity's received frames. -/
lemma receivedByList_append_new (cid cid' : Nat) (tr : Nat → TxBehavior)
    (l : List Conn) :
    receivedByList cid (l ++ [newConn cid' tr]) = receivedByList cid l := by
  unfold receivedByList
  rw [List.filter_append, List.map_append, List.flatten_append]
  by_cases hc : (cid' == cid) = true
  · simp [newConn, hc]
  · simp [newConn, hc]

/-- Lemma: closing every connection (hub shutdown) changes no identity's
received frames. -/
lemma receivedByList_map_close (cid : Nat) :
    ∀ l : List Conn,
      receivedByList cid (l.map Conn.close) = receivedByList cid l := by
  intro l
  induction l with
  | nil => rfl
  | cons c l ih =>
      unfold receivedByList at ih ⊢
      rw [List.map_cons, List.filter_cons, List.filter_cons]
      simp only [(close_fields c).1]
      by_cases hc : (c.id == cid) = true
      · rw [if_pos hc, if_pos hc, List.map_cons, List.map_cons,
          List.flatten_cons, List.flatten_cons, (close_fields c).2.2.2.2, ih]
      · rw [if_neg hc, if_neg hc]
        exact ih

/-- Lemma: one hub-loop iteration can only add the submitted frame itself
to the frames received under an identity. -/
lemma mem_receivedBy_step (cid : Nat) (st : HubState) (e : Event) (f : frame)
    (h : f ∈ receivedBy cid (step st e)) :
    f ∈ receivedBy cid st ∨ e = Event.submit f := by
  unfold step at h
  by_cases hT : st.terminated = true
  · rw [if_pos hT] at h
    exact Or.inl h
  · rw [if_neg hT] at h
    cases e with
    | submit g =>
        have h' : f ∈ receivedByList cid (st.outbound.map (fanoutOne g)) := h
        rcases mem_receivedByList_fanout cid g f st.outbound h' with h'' | h''
        · exact Or.inl h''
        · exact Or.inr (by rw [h''])
    | register cid' tr =>
        have h' : f ∈ receivedByList cid (st.outbound ++ [newConn cid' tr]) := h
        rw [receivedByList_append_new] at h'
        exact Or.inl h'
    | shutdown =>
        have h' : f ∈ receivedByList cid (st.outbound.map Conn.close) := h
        rw [receivedByList_map_close] at h'
        exact Or.inl h'

/-- Lemma: over any event suffix, a received frame was either already
received or appears among the suffix's submissions. -/
lemma mem_receivedBy_foldl (cid : Nat) (f : frame) :
    ∀ (es : List Event) (st : HubState),
      f ∈ receivedBy cid (List.foldl step st es) →
      f ∈ receivedBy cid st ∨ Event.submit f ∈ es := by
  intro es
  induction es with
  | nil => exact fun _ h => Or.inl h
  | cons e es ih =>
      intro st h
      rw [List.foldl_cons] at h
      rcases ih (step st e) h with h' | h'
      · rcases mem_receivedBy_step cid st e f h' with h'' | h''
        · exact Or.inl h''
        · exact Or.inr (by rw [← h'']; exact List.mem_cons_self e es)
      · exact Or.inr (List.mem_cons_of_mem _ h')

/-- Lemma: while an identity is never registered, no connection in the
registry carries it. -/
lemma no_conn_id_foldl (cid : Nat) :
    ∀ (es : List Event) (st : HubState),
      cid ∉ registerIds es → (∀ c ∈ st.outbound, c.id ≠ cid) →
      ∀ c ∈ (List.foldl step st es).outbound, c.id ≠ cid := by
  intro es
  induction es with
  | nil => exact fun _ _ hst => hst
  | cons e es ih =>
      intro st hreg hst
      rw [List.foldl_cons]
      have hnext : ∀ c ∈ (step st e).outbound, c.id ≠ cid := by
        intro c hc
        unfold step at hc
        by_cases hT : st.terminated = true
        · rw [if_pos hT] at hc
          exact hst c hc
        · rw [if_neg hT] at hc
          cases e with
          | submit g =>
              obtain ⟨d, hd, hdc⟩ := List.mem_map.mp hc
              rw [← hdc, (fanoutOne_fields g d).1]
              exact hst d hd
          | register cid' tr =>
              rcases List.mem_append.mp hc with h' | h'
              · exact hst c h'
              · rw [List.mem_singleton.mp h']
                intro hh
                apply hreg
                have hcc : cid' = cid := hh
                have hmem : cid ∈ cid' :: registerIds es := by
                  rw [hcc]; exact List.mem_cons_self _ _
                exact hmem
          | shutdown =>
              obtain ⟨d, hd, hdc⟩ := List.mem_map.mp hc
              rw [← hdc, (close_fields d).1]
              exact hst d hd
      refine ih (step st e) ?_ hnext
      intro hmem
      apply hreg
      cases e with
      | submit g => exact hmem
      | register cid' tr =>
          have hmem2 : cid ∈ cid' :: registerIds es :=
            List.mem_cons_of_mem _ hmem
          exact hmem2
      | shutdown => exact hmem

/-- Lemma: an identity with no connection in the registry has received
nothing. -/
lemma receivedBy_nil_of_no_conn (cid : Nat) (st : HubState)
    (h : ∀ c ∈ st.outbound, c.id ≠ cid) : receivedBy cid st = [] := by
  unfold receivedBy receivedByList
  have hf : st.outbound.filter (fun c => c.id == cid) = [] := by
    rw [List.filter_eq_nil_iff]
    intro c hc
    simp only [beq_iff_eq]
    exact h c hc
  rw [hf]
  rfl

/-- Claim C4: a subscriber never receives a frame submitted before its
registration completed — every frame it receives comes from a submission
event strictly after its registration event in the hub's serialised event
order. -/
theorem no_delivery_before_registration (es₁ es₂ : List Event) (cid : Nat)
    (tr : Nat → TxBehavior) (f : frame)
    (hreg : cid ∉ registerIds es₁)
    (hrecv : f ∈ receivedBy cid
      (runEvents (es₁ ++ Event.register cid tr :: es₂))) :
    Event.submit f ∈ es₂ := by
  unfold runEvents at hrecv
  rw [List.foldl_append] at hrecv
  rcases mem_receivedBy_foldl cid f (Event.register cid tr :: es₂) _ hrecv
    with h | h
  · have hempty : receivedBy cid
        (List.foldl step { outbound := [], terminated := false } es₁) = [] :=
      receivedBy_nil_of_no_conn cid _
        (no_conn_id_foldl cid es₁ { outbound := [], terminated := false } hreg
          (by intro c hc; cases hc))
    rw [hempty] at h
    cases h
  · rcases List.mem_cons.mp h with h' | h'
    · exact Event.noConfusion h'
    · exact h'

/-- Transport behaviour for the C4 witness: always fast and successful. -/
def steadyTransport : Nat → TxBehavior := fun _ => ⟨true, 0, true⟩

/-- Frame submitted before the witness subscriber registers. -/
def preRegFrame : frame := [("Frame", .str "PartialCall"), ("Call", .str "AA1AA")]

/-- Frame submitted after the witness subscriber registers. -/
def postRegFrame : frame := [("Frame", .str "Gab"), ("Message", .str "bye")]

/-- Events before the witness subscriber's registration. -/
def preRegEvents : List Event := [Event.submit preRegFrame]

/-- Events after the witness subscriber's registration. -/
def postRegEvents : List Event := [Event.submit postRegFrame]

/-- Claim C4 witness: the theorem applied to a concrete run — one frame
submitted before subscriber 7 registers, one after; the frame subscriber 7
received is the one submitted after its registration. -/
theorem no_delivery_before_registration_witness :
    Event.submit postRegFrame ∈ postRegEvents :=
  no_delivery_before_registration preRegEvents postRegEvents 7 steadyTransport
    postRegFrame (by decide) (by decide)

end Godxmap
